import Mathlib

/-!
Shallow embedding of `src/rps.js` (an HMAC-committed generalized
rock-paper-scissors CLI game) and verification of its specification.

Conventions of the embedding:
* JavaScript strings are Lean `String`s; `undefined` values that can flow
  into string positions are modelled as `Option String` (`none` = undefined).
* JavaScript numbers reaching the game logic are either NaN or (for the
  inputs this program can meet: decimal literals and array lengths) exact
  rationals, modelled by `JSVal`.
* Thrown exceptions are modelled with `Except` (for the pure resolver) or
  with an `Ev.errorMsg` trace event (for the controller, whose `catch`
  prints the message and terminates).
* Console output and randomness draws are modelled as an event trace
  (`List Ev`); each `console.log` of interest and each call into the random
  source is one event, in source order.
-/

namespace RPS

/-- The three outcomes. In `RPSHelper` these are the strings
`'Draw'`, `'Win'`, `'Lose'`; in `GameLogic.determineWinner` they are the
returned messages "It's a draw!", "You won!", "Computer won!"
(always from the user's point of view). -/
inductive Outcome where
  | draw
  | win
  | lose
deriving DecidableEq, Repr

/-- ECMAScript `Array.prototype.indexOf` on an array of strings:
index of the first occurrence, `-1` when absent. -/
def jsIndexOf : List String → String → Int
  | [], _ => -1
  | x :: xs, m =>
    if x = m then 0
    else if jsIndexOf xs m = -1 then -1
    else jsIndexOf xs m + 1

/-- `indexOf` applied to a possibly-`undefined` argument:
`undefined` is not equal to any string, so the result is `-1`. -/
def jsIndexOfOpt (xs : List String) : Option String → Int
  | none => -1
  | some m => jsIndexOf xs m

/-- ECMAScript `Array.prototype.slice(start, end)` on a string array with
(mathematical-)integer arguments: negative positions count from the end,
then both are clamped to `[0, length]`. -/
def jsSlice (xs : List String) (start stop : Int) : List String :=
  let len : Int := xs.length
  let s := if start < 0 then max (len + start) 0 else min start len
  let e := if stop < 0 then max (len + stop) 0 else min stop len
  (xs.drop s.toNat).take (e - s).toNat

/-- `winningMoves.includes(userMove)` where `userMove` may be `undefined`:
`undefined` is never an element of a string array. -/
def includesOpt (xs : List String) : Option String → Bool
  | none => false
  | some m => xs.contains m

/-- `RPSHelper.determineOutcome(indexA, indexB, n)` (src/rps.js:30-38).
`diff = (indexB - indexA + n) % n`; the dividend is nonnegative at every
call site (`0 ≤ indexA, indexB < n`), where JS `%` agrees with `Int.emod`.
The source compares `diff <= n / 2` with JS real (double) division; for
the integers `diff` and `n` this program meets (array indices and lengths,
far below 2^52) that comparison is exact and holds iff `2 * diff ≤ n`,
the form used here so the definition evaluates by `decide`. -/
def determineOutcome (indexA indexB : ℕ) (n : ℕ) : Outcome :=
  let diff : Int := ((indexB : Int) - (indexA : Int) + (n : Int)) % (n : Int)
  if diff = 0 then Outcome.draw
  else if 2 * diff ≤ (n : Int) then Outcome.win
  else Outcome.lose

/-- `RPSHelper.generateTable(moves)` (src/rps.js:16-28): row `i` is
`moves[i]` followed by `determineOutcome(i, j, n)` for `j = 0..n-1`
(in the source the outcome for column `j` sits at row position `j+1`;
here the row label is the first component of the pair). Row `i` is the
computer ("PC") move, column `j` the user move. -/
def generateTable (moves : List String) : List (String × List Outcome) :=
  (List.range moves.length).map fun i =>
    (moves.getD i "",
     (List.range moves.length).map fun j => determineOutcome i j moves.length)

/-- `GameLogic.determineWinner(userMove, computerMove)` (src/rps.js:170-190).
`userMove` may be `undefined` (`none`).  Throwing `InvalidInputError` is
`Except.error ()`; the three returned message strings are the three
`Outcome`s.  `half = Math.floor(n / 2)` is Nat division; `winningMoves` is
`moves.slice(computerIndex + 1, computerIndex + 1 + half)
  .concat(moves.slice(0, computerIndex - half))` with JS slice semantics. -/
def determineWinner (moves : List String) (userMove : Option String)
    (computerMove : String) : Except Unit Outcome :=
  if jsIndexOfOpt moves userMove = -1 ∨ jsIndexOf moves computerMove = -1 then
    Except.error ()
  else if userMove = some computerMove then
    Except.ok Outcome.draw
  else if includesOpt
      (jsSlice moves (jsIndexOf moves computerMove + 1)
          (jsIndexOf moves computerMove + 1 + ((moves.length / 2 : ℕ) : Int)) ++
        jsSlice moves 0 (jsIndexOf moves computerMove - ((moves.length / 2 : ℕ) : Int)))
      userMove then
    Except.ok Outcome.win
  else
    Except.ok Outcome.lose

/-- Modelled from the spec (§4.2 Outcome Resolver), for comparison against
`determineWinner`: with `iH`, `iC` the 0-based positions of the moves,
Draw iff the positions are equal, else the human wins iff
`(iH - iC + N) mod N ∈ [1, floor(N/2)]`; `none` when a move is absent. -/
def specResolve (moves : List String) (humanMove computerMove : String) :
    Option Outcome :=
  if humanMove ∈ moves ∧ computerMove ∈ moves then
    let n : Int := moves.length
    let iH := jsIndexOf moves humanMove
    let iC := jsIndexOf moves computerMove
    let d := (iH - iC + n) % n
    some (if d = 0 then Outcome.draw
      else if 1 ≤ d ∧ d ≤ ((moves.length / 2 : ℕ) : Int) then Outcome.win
      else Outcome.lose)
  else none

/-- The classical 3-move set. -/
def rps3 : List String := ["Rock", "Paper", "Scissors"]

/-- The 5-move set of the spec's boundary example. -/
def rpsls : List String := ["Rock", "Paper", "Scissors", "Lizard", "Spock"]

/-- A JavaScript number as the game can see one: `NaN`, or an exact value.
Every number this program produces from its inputs (decimal strings via
`Number(...)`, array lengths, differences) is exactly representable, so the
value case is an exact rational. -/
inductive JSVal where
  | nan
  | num (q : ℚ)
deriving DecidableEq, Repr

/-- Subtracting 1 from a JS number (`userMoveIndex - 1`): `NaN` stays `NaN`.
The value case is `q - 1`, written as `mkRat (q.num - q.den) q.den` so the
definition evaluates inside `decide` (the `Sub` of `ℚ` is irreducible);
`jsSub1_num` below proves the two forms equal. -/
def jsSub1 : JSVal → JSVal
  | JSVal.nan => JSVal.nan
  | JSVal.num q => JSVal.num (mkRat (q.num - q.den) q.den)

/-- `moves[p]` for a JS numeric property `p`: an element when `p` is an
integer in `[0, length)`, `undefined` (`none`) for `NaN`, negatives,
fractions, and out-of-range indices. -/
def jsArrayGet (xs : List String) : JSVal → Option String
  | JSVal.nan => none
  | JSVal.num q =>
    if h : q.den = 1 ∧ 0 ≤ q.num ∧ q.num.toNat < xs.length then
      some (xs.get ⟨q.num.toNat, h.2.2⟩)
    else none

/-- `c` is an ASCII decimal digit. -/
def isDigit (c : Char) : Bool := decide ('0' ≤ c) && decide (c ≤ '9')

/-- Numeric value of a digit string (most significant first). -/
def digitsToNat (cs : List Char) : ℕ :=
  cs.foldl (fun a c => 10 * a + (c.toNat - Char.toNat '0')) 0

/-- Unsigned part of ECMAScript `ToNumber` on a trimmed string: digits,
optionally followed by `.` and further digits (either side may be empty
but not both); `none` on anything else. -/
def parseUnsigned (cs : List Char) : Option ℚ :=
  let intPart := cs.takeWhile isDigit
  let rest := cs.dropWhile isDigit
  match rest with
  | [] => if intPart.isEmpty then none else some ((digitsToNat intPart : ℕ) : ℚ)
  | '.' :: frac =>
    if frac.all isDigit && (!intPart.isEmpty || !frac.isEmpty) then
      some (mkRat (digitsToNat intPart * 10 ^ frac.length + digitsToNat frac)
        (10 ^ frac.length))
    else none
  | _ => none

/-- ECMAScript `Number(s)` on an already-trimmed string, restricted to the
forms relevant here: the empty string is `0`; an optional sign followed by
a decimal literal (digits, optional fraction) is its exact value; anything
else (including every non-numeric string such as "abc") is `NaN`.
Exponent, hex/octal/binary and `Infinity` forms are not modelled; no claim
below depends on them. -/
def toNumber (s : String) : JSVal :=
  match s.toList with
  | [] => JSVal.num 0
  | '+' :: rest =>
    match parseUnsigned rest with
    | some q => JSVal.num q
    | none => JSVal.nan
  | '-' :: rest =>
    match parseUnsigned rest with
    | some q => JSVal.num (-q)
    | none => JSVal.nan
  | cs =>
    match parseUnsigned cs with
    | some q => JSVal.num q
    | none => JSVal.nan

/-- `GameController.validateUserInput(userMoveIndex)` (src/rps.js:130-134):
`true` iff the source throws `InvalidInputError`, i.e. iff the index is
`NaN`, negative, or greater than `moves.length`. -/
def validateUserInputThrows (v : JSVal) (n : ℕ) : Bool :=
  match v with
  | JSVal.nan => true
  | JSVal.num q => decide (q < 0) || decide ((n : ℚ) < q)

/-- One interactive input, as `GameController.playGame` dispatches on it:
the literal string `'?'`, the literal string `'0'`, or any other line,
carried as its `Number(...)` value. -/
inductive Inp where
  | help
  | exitGame
  | other (v : JSVal)
deriving DecidableEq, Repr

/-- Observable events of one run, in source order: randomness draws
(`genKey` for `HMACGenerator.generateKey`, `pickMove` for the
`Math.random()` move selection), the interesting `console.log`s, the
single `readline` prompt, and the `catch`-handler error message. -/
inductive Ev where
  | genKey
  | pickMove
  | showHMAC (digest : String)
  | showMoves
  | prompt
  | showHelp (table : List (String × List Outcome))
  | exitMsg
  | showUserMove (m : Option String)
  | showComputerMove (m : String)
  | showOutcome (o : Outcome)
  | revealKey (k : String)
  | errorMsg
deriving DecidableEq, Repr

/-- `this.moves[Math.floor(Math.random() * this.moves.length)]`
(src/rps.js:71): the computer's move, with `r` the drawn index. -/
def pickIdx (moves : List String) (r : ℕ) : String := moves.getD r ""

/-- Events emitted by `GameController.playGame` (src/rps.js:69-99) before
the input branch: pick the computer move, print the HMAC digest
(`H key computerMove` where `H` models `keyedHash('sha3-256', ·, ·)` and
`key` is `RPSGame.hmacKey`, generated once in the constructor), print the
available moves, prompt for input. `r` is the index `Math.floor(Math.random()
* moves.length)` of the computer's move. -/
def preamble (H : String → String → String) (key : String)
    (moves : List String) (r : ℕ) : List Ev :=
  [Ev.pickMove, Ev.showHMAC (H key (pickIdx moves r)), Ev.showMoves, Ev.prompt]

/-- `GameController.playGame` (src/rps.js:69-99) as an event trace, after
the commitment has been issued, dispatching on the single line of input:
`'?'` shows the help table and returns; `'0'` prints "Exiting..." and
returns; otherwise `userMove = moves[Number(input) - 1]` is looked up,
`validateUserInput` may throw (caught: error message, no reveal), then the
user and computer moves are printed, `determineWinner` may throw (caught:
error message, no reveal), and on success the outcome and then the HMAC
key are printed. -/
def playGame (H : String → String → String) (key : String)
    (moves : List String) (r : ℕ) : Inp → List Ev
  | Inp.help => preamble H key moves r ++ [Ev.showHelp (generateTable moves)]
  | Inp.exitGame => preamble H key moves r ++ [Ev.exitMsg]
  | Inp.other v =>
    if validateUserInputThrows v moves.length then
      preamble H key moves r ++ [Ev.errorMsg]
    else
      preamble H key moves r ++
        [Ev.showUserMove (jsArrayGet moves (jsSub1 v)),
         Ev.showComputerMove (pickIdx moves r)] ++
        (match determineWinner moves (jsArrayGet moves (jsSub1 v))
            (pickIdx moves r) with
         | Except.error _ => [Ev.errorMsg]
         | Except.ok o => [Ev.showOutcome o, Ev.revealKey key])

/-- The configuration guard of `main` (src/rps.js:214):
`moves.length < 3 || moves.length % 2 !== 1 || new Set(moves).size !==
moves.length` (the `Set` size is the number of distinct labels,
`moves.dedup.length`). `true` means the run is rejected before any game
object is constructed. -/
def configRejected (moves : List String) : Bool :=
  decide (moves.length < 3) || decide (moves.length % 2 ≠ 1) ||
    decide (moves.dedup.length ≠ moves.length)

/-- `main` (src/rps.js:210-242) as an event trace: an invalid move set is
rejected with an error message before any randomness is drawn; otherwise
the key is generated (in the `RPSGame` constructor) and `playGame` runs. -/
def main (H : String → String → String) (key : String) (r : ℕ)
    (moves : List String) (input : Inp) : List Ev :=
  if configRejected moves then [Ev.errorMsg]
  else Ev.genKey :: playGame H key moves r input

/-- Dispatch on the raw (trimmed) input line, as in src/rps.js:78-87:
the checks against `'?'` and `'0'` are string comparisons made before any
numeric conversion. -/
def classify (s : String) : Inp :=
  if s = "?" then Inp.help
  else if s = "0" then Inp.exitGame
  else Inp.other (toNumber s)

/-- A whole run on a raw input line. -/
def mainStr (H : String → String → String) (key : String) (r : ℕ)
    (moves : List String) (s : String) : List Ev :=
  main H key r moves (classify s)

/-! ## Helper lemmas -/

/-- `jsSub1` on a value is ordinary subtraction of 1 in `ℚ`. -/
theorem jsSub1_num (q : ℚ) : jsSub1 (JSVal.num q) = JSVal.num (q - 1) := by
  have hd : ((q.den : ℕ) : ℚ) ≠ 0 := Nat.cast_ne_zero.mpr q.den_ne_zero
  simp only [jsSub1, JSVal.num.injEq]
  rw [Rat.mkRat_eq_divInt, Rat.divInt_eq_div]
  push_cast
  rw [sub_div, Rat.num_div_den, div_self hd]

/-- A member of the array has a nonnegative `indexOf`. -/
theorem jsIndexOf_nonneg {xs : List String} {m : String} (h : m ∈ xs) :
    0 ≤ jsIndexOf xs m := by
  induction xs with
  | nil => simp at h
  | cons x xs ih =>
    by_cases hx : x = m
    · simp [jsIndexOf, hx]
    · have hm : m ∈ xs := by
        rcases List.mem_cons.mp h with h1 | h1
        · exact absurd h1.symm hx
        · exact h1
      have h0 := ih hm
      have hne : jsIndexOf xs m ≠ -1 := by omega
      simp only [jsIndexOf, if_neg hx, if_neg hne]
      omega

/-- If deduplication preserves the length, the list had no duplicates. -/
theorem nodup_of_dedup_length {l : List String}
    (h : l.dedup.length = l.length) : l.Nodup := by
  have he : l.dedup = l := (List.dedup_sublist l).eq_of_length h
  rw [← he]
  exact List.nodup_dedup l

/-- The resolver throws on an `undefined` user move
(`indexOf(undefined) = -1`). -/
theorem determineWinner_none (moves : List String) (cm : String) :
    determineWinner moves none cm = Except.error () := by
  simp [determineWinner, jsIndexOfOpt]

/-! ## Claims -/

/-- C1: the spec's resolution formula — Draw iff equal positions, otherwise
the human wins iff `(iHuman - iComputer + N) mod N ∈ [1, floor(N/2)]` — is
violated by `GameLogic.determineWinner`: at the five-move set with human
`Rock` (index 0) against computer `Paper` (index 1), the formula gives
`(0 - 1 + 5) mod 5 = 4 ∉ [1, 2]`, a loss, but the code answers "You won!"
(the second `slice` end `computerIndex - half = -1` wraps around in JS and
drags losing moves into `winningMoves`). -/
theorem c1_resolver_contradicts_spec_formula :
    specResolve rpsls "Rock" "Paper" = some Outcome.lose ∧
    determineWinner rpsls (some "Rock") "Paper" = Except.ok Outcome.win :=
  ⟨by decide, rfl⟩

/-- C2: the help table and the resolver disagree: for the five-move set,
the table entry at row `i = 1` (computer plays `Paper`), column `j = 0`
(user plays `Rock`) is `Lose`, but
`determineWinner(userMove = Rock, computerMove = Paper)` answers
"You won!". -/
theorem c2_table_and_resolver_disagree :
    ((generateTable rpsls).getD 1 ("", [])).1 = rpsls.getD 1 "" ∧
    ((generateTable rpsls).getD 1 ("", [])).2.getD 0 Outcome.draw =
      Outcome.lose ∧
    determineWinner rpsls (some (rpsls.getD 0 "")) (rpsls.getD 1 "") =
      Except.ok Outcome.win :=
  ⟨by decide, by decide, rfl⟩

/-- C3: anti-symmetry fails: with the five-move set and the distinct moves
`Rock` and `Paper`, `determineWinner(Rock, Paper)` is Win but
`determineWinner(Paper, Rock)` is Win as well, not Lose. -/
theorem c3_antisymmetry_fails :
    determineWinner rpsls (some "Rock") "Paper" = Except.ok Outcome.win ∧
    determineWinner rpsls (some "Paper") "Rock" = Except.ok Outcome.win ∧
    ("Rock" : String) ≠ "Paper" :=
  ⟨rfl, rfl, by decide⟩

/-- C4 counterexample: the claim asserts `Scissors` loses to `Rock` and
beats `Lizard` under the ordering `[Rock, Paper, Scissors, Lizard, Spock]`;
the code (here in agreement with the spec's own cyclic formula, which makes
each move beat its `floor(N/2)` cyclic predecessors) gives the opposite on
both pairs. -/
theorem c4_counterexample_scissors_row :
    determineWinner rpsls (some "Scissors") "Rock" = Except.ok Outcome.win ∧
    determineWinner rpsls (some "Scissors") "Lizard" =
      Except.ok Outcome.lose :=
  ⟨rfl, rfl⟩

/-- C4 (amended): the resolver reproduces the classical rules for N = 3
(`Rock` loses to `Paper` and beats `Scissors`), and for N = 5 with
`[Rock, Paper, Scissors, Lizard, Spock]` the moves `Scissors` beats are its
cyclic predecessors `Paper` and `Rock`, while it loses to `Lizard` and
`Spock`; in particular human `Scissors` against computer `Paper` is a Win. -/
theorem c4_boundary_tables :
    determineWinner rps3 (some "Rock") "Paper" = Except.ok Outcome.lose ∧
    determineWinner rps3 (some "Rock") "Scissors" = Except.ok Outcome.win ∧
    determineWinner rpsls (some "Scissors") "Paper" = Except.ok Outcome.win ∧
    determineWinner rpsls (some "Scissors") "Rock" = Except.ok Outcome.win ∧
    determineWinner rpsls (some "Scissors") "Lizard" =
      Except.ok Outcome.lose ∧
    determineWinner rpsls (some "Scissors") "Spock" =
      Except.ok Outcome.lose :=
  ⟨rfl, rfl, rfl, rfl, rfl, rfl⟩

/-- C5: whatever commitment digest `d`, revealed key `k` and announced
computer move `m` appear in one run's trace, `H k m = d`: recomputing the
keyed hash (here `H`, an arbitrary deterministic function standing for
`keyedHash('sha3-256', ·, ·)`) from the revealed key and the announced
computer move reproduces the digest shown before the human's input, because
the digest was computed from the very key the run later reveals and the key
is generated once per run. -/
theorem c5_revealed_key_reproduces_digest
    (H : String → String → String) (key : String) (r : ℕ)
    (moves : List String) (input : Inp) (d k m : String)
    (hd : Ev.showHMAC d ∈ main H key r moves input)
    (hk : Ev.revealKey k ∈ main H key r moves input)
    (hm : Ev.showComputerMove m ∈ main H key r moves input) :
    H k m = d := by
  cases hc : configRejected moves with
  | true => simp [main, hc] at hk
  | false =>
    cases input with
    | help => simp [main, playGame, preamble, hc] at hk
    | exitGame => simp [main, playGame, preamble, hc] at hk
    | other v =>
      cases hv : validateUserInputThrows v moves.length with
      | true => simp [main, playGame, preamble, hc, hv] at hk
      | false =>
        cases hw : determineWinner moves (jsArrayGet moves (jsSub1 v))
            (pickIdx moves r) with
        | error e => simp [main, playGame, preamble, hc, hv, hw] at hk
        | ok o =>
          simp [main, playGame, preamble, hc, hv, hw] at hd hk hm
          rw [hk, hm, hd]

/-- C5 witness: a concrete run (hash = string append, key "k", computer
move `Rock`, input line "1") in which digest, key and move all appear, and
the recomputed hash equals the shown digest. -/
theorem c5_revealed_key_reproduces_digest_witness :
    Ev.showHMAC "kRock" ∈
      main (fun a b => a ++ b) "k" 0 rpsls (Inp.other (toNumber "1")) ∧
    Ev.revealKey "k" ∈
      main (fun a b => a ++ b) "k" 0 rpsls (Inp.other (toNumber "1")) ∧
    Ev.showComputerMove "Rock" ∈
      main (fun a b => a ++ b) "k" 0 rpsls (Inp.other (toNumber "1")) ∧
    ("k" ++ "Rock" : String) = "kRock" :=
  ⟨by decide, by decide, by decide,
    c5_revealed_key_reproduces_digest (fun a b => a ++ b) "k" 0 rpsls
      (Inp.other (toNumber "1")) "kRock" "k" "Rock"
      (by decide) (by decide) (by decide)⟩

/-- C6: for a valid move set and member moves, the resolver never throws —
it returns exactly one of the three outcomes (the return type has exactly
the three constructors Draw/Win/Lose) — and a move against itself is a
Draw. -/
theorem c6_resolver_total_and_self_draw
    (moves : List String) (m1 m2 : String)
    (hvalid : configRejected moves = false)
    (h1 : m1 ∈ moves) (h2 : m2 ∈ moves) :
    (∃ o, determineWinner moves (some m1) m2 = Except.ok o) ∧
    determineWinner moves (some m1) m1 = Except.ok Outcome.draw := by
  have g1 : jsIndexOf moves m1 ≠ -1 := by
    have := jsIndexOf_nonneg h1; omega
  have g2 : jsIndexOf moves m2 ≠ -1 := by
    have := jsIndexOf_nonneg h2; omega
  constructor
  · unfold determineWinner
    rw [if_neg (by simp only [jsIndexOfOpt, not_or]; exact ⟨g1, g2⟩)]
    split
    · exact ⟨_, rfl⟩
    · split
      · exact ⟨_, rfl⟩
      · exact ⟨_, rfl⟩
  · unfold determineWinner
    rw [if_neg (by simp only [jsIndexOfOpt, not_or]; exact ⟨g1, g1⟩),
      if_pos rfl]

/-- C6 witness: the classical three-move set with `Rock` against `Paper`
(some outcome is returned) and `Rock` against itself (a draw). -/
theorem c6_resolver_total_and_self_draw_witness :
    (∃ o, determineWinner rps3 (some "Rock") "Paper" = Except.ok o) ∧
    determineWinner rps3 (some "Rock") "Rock" = Except.ok Outcome.draw :=
  c6_resolver_total_and_self_draw rps3 "Rock" "Paper"
    (by decide) (by decide) (by decide)

/-- C7 counterexample: on input `'?'` the session does NOT return to
awaiting input: the whole run is a single prompt followed by the help
table and termination — there is exactly one `prompt` event and the trace
ends at the help table. -/
theorem c7_counterexample_help_then_termination :
    mainStr (fun a b => a ++ b) "k" 0 rpsls "?" =
      [Ev.genKey, Ev.pickMove, Ev.showHMAC "kRock", Ev.showMoves, Ev.prompt,
       Ev.showHelp (generateTable rpsls)] ∧
    (mainStr (fun a b => a ++ b) "k" 0 rpsls "?").count Ev.prompt = 1 ∧
    (mainStr (fun a b => a ++ b) "k" 0 rpsls "?").getLast? =
      some (Ev.showHelp (generateTable rpsls)) :=
  ⟨by decide, by decide, by decide⟩

/-- C7 (amended): on input `'?'` the session shows the help table derived
from the same move set and then terminates — without revealing the key and
without regenerating anything: the trace holds exactly one key generation,
one move pick, and one commitment digest, over the same computer move. -/
theorem c7_help_shows_table_and_terminates
    (H : String → String → String) (key : String) (r : ℕ)
    (moves : List String) (hvalid : configRejected moves = false) :
    main H key r moves Inp.help =
      [Ev.genKey, Ev.pickMove, Ev.showHMAC (H key (pickIdx moves r)),
       Ev.showMoves, Ev.prompt, Ev.showHelp (generateTable moves)] := by
  simp [main, hvalid, playGame, preamble]

/-- C7 witness: the amended statement at a concrete run. -/
theorem c7_help_shows_table_and_terminates_witness :
    main (fun a b => a ++ b) "k" 0 rps3 Inp.help =
      [Ev.genKey, Ev.pickMove, Ev.showHMAC "kRock",
       Ev.showMoves, Ev.prompt, Ev.showHelp (generateTable rps3)] :=
  c7_help_shows_table_and_terminates (fun a b => a ++ b) "k" 0 rps3
    (by decide)

/-- C8: an argument list of even size, or of size below 3, or with a
duplicate label, is rejected up front: the whole run is the single error
message, and in particular no key-generation and no move-pick randomness
event ever occurs. -/
theorem c8_invalid_config_rejected_before_randomness
    (H : String → String → String) (key : String) (r : ℕ)
    (moves : List String) (input : Inp)
    (h : moves.length % 2 = 0 ∨ moves.length < 3 ∨ ¬ moves.Nodup) :
    main H key r moves input = [Ev.errorMsg] ∧
    Ev.genKey ∉ main H key r moves input ∧
    Ev.pickMove ∉ main H key r moves input := by
  have hrej : configRejected moves = true := by
    unfold configRejected
    simp only [Bool.or_eq_true, decide_eq_true_eq]
    rcases h with h | h | h
    · left; right; omega
    · left; left; exact h
    · right; intro hlen; exact h (nodup_of_dedup_length hlen)
  refine ⟨by simp [main, hrej], by simp [main, hrej], by simp [main, hrej]⟩

/-- C8 witness: a four-element (even) move set is rejected with no
randomness drawn. -/
theorem c8_invalid_config_rejected_before_randomness_witness :
    main (fun a b => a ++ b) "k" 0 ["A", "B", "C", "D"] Inp.help =
      [Ev.errorMsg] ∧
    Ev.genKey ∉ main (fun a b => a ++ b) "k" 0 ["A", "B", "C", "D"]
      Inp.help ∧
    Ev.pickMove ∉ main (fun a b => a ++ b) "k" 0 ["A", "B", "C", "D"]
      Inp.help :=
  c8_invalid_config_rejected_before_randomness (fun a b => a ++ b) "k" 0
    ["A", "B", "C", "D"] Inp.help (Or.inl (by decide))

/-- C9 counterexample: the input line "01" is outside the recognized
grammar (`"1".."5"`, `"0"`, `"?"` for N = 5), yet the session does not
raise `InvalidInput`: it completes the game and reveals the secret key
(`Number('01') = 1`, which passes the numeric gate and selects move 1). -/
theorem c9_counterexample_offgrammar_input_reveals_key :
    Ev.revealKey "k" ∈ mainStr (fun a b => a ++ b) "k" 0 rpsls "01" ∧
    Ev.errorMsg ∉ mainStr (fun a b => a ++ b) "k" 0 rpsls "01" ∧
    "01" ∉ ["1", "2", "3", "4", "5", "0", "?"] :=
  ⟨by decide, by decide, by decide⟩

/-- C9 (amended): every interactive input whose numeric value is NaN,
negative, or greater than N — which covers "abc", "-1" and "99" at N = 5 —
makes the session raise `InvalidInput` and terminate with the error
message, the secret key never being revealed (the trace is exactly the
preamble followed by the error message). -/
theorem c9_gate_rejected_input_terminates_unrevealed
    (H : String → String → String) (key : String) (r : ℕ)
    (moves : List String) (s : String)
    (hq : s ≠ "?") (h0 : s ≠ "0")
    (hvalid : configRejected moves = false)
    (hv : validateUserInputThrows (toNumber s) moves.length = true) :
    mainStr H key r moves s =
      [Ev.genKey, Ev.pickMove, Ev.showHMAC (H key (pickIdx moves r)),
       Ev.showMoves, Ev.prompt, Ev.errorMsg] := by
  simp [mainStr, classify, hq, h0, main, hvalid, playGame, preamble, hv]

/-- C9 witness: the amended statement at the spec's example input "abc"
(numeric value NaN) with the five-move set. -/
theorem c9_gate_rejected_input_terminates_unrevealed_witness :
    mainStr (fun a b => a ++ b) "k" 0 rpsls "abc" =
      [Ev.genKey, Ev.pickMove, Ev.showHMAC "kRock",
       Ev.showMoves, Ev.prompt, Ev.errorMsg] :=
  c9_gate_rejected_input_terminates_unrevealed (fun a b => a ++ b) "k" 0
    rpsls "abc" (by decide) (by decide) (by decide) (by decide)

/-- C10: a numeric input value in `[0, N]` that is not an integer in
`[1, N]` (the values of inputs such as "", "00" or "2.5", none of which is
the exact exit string "0") passes `validateUserInput`, the looked-up move
is `undefined`, and the session then fails inside the resolver
(`InvalidInputError`) with the key unrevealed: the trace passes the gate,
shows an undefined user move, and ends in the resolver's error message
with no reveal event. -/
theorem c10_gate_passes_resolver_rejects
    (H : String → String → String) (key : String) (r : ℕ)
    (moves : List String) (q : ℚ)
    (hvalid : configRejected moves = false)
    (h0 : 0 ≤ q) (hn : q ≤ (moves.length : ℚ))
    (hni : ∀ j : ℕ, 1 ≤ j → j ≤ moves.length → q ≠ (j : ℚ)) :
    validateUserInputThrows (JSVal.num q) moves.length = false ∧
    main H key r moves (Inp.other (JSVal.num q)) =
      [Ev.genKey, Ev.pickMove, Ev.showHMAC (H key (pickIdx moves r)),
       Ev.showMoves, Ev.prompt, Ev.showUserMove none,
       Ev.showComputerMove (pickIdx moves r), Ev.errorMsg] := by
  have hval : validateUserInputThrows (JSVal.num q) moves.length = false := by
    simp only [validateUserInputThrows, Bool.or_eq_false_iff,
      decide_eq_false_iff_not, not_lt]
    exact ⟨h0, hn⟩
  have hget : jsArrayGet moves (jsSub1 (JSVal.num q)) = none := by
    rw [jsSub1_num]
    simp only [jsArrayGet]
    rw [dif_neg]
    rintro ⟨hden, hnum, hlt⟩
    have hz : (((q - 1).num : ℤ) : ℚ) = q - 1 :=
      Rat.coe_int_num_of_den_eq_one hden
    have hjq : ((q - 1).num : ℤ) = ((q - 1).num.toNat : ℤ) :=
      (Int.toNat_of_nonneg hnum).symm
    refine hni ((q - 1).num.toNat + 1) (by omega) (by omega) ?_
    have ht : (((q - 1).num.toNat : ℕ) : ℚ) = q - 1 := by
      rw [← Int.cast_natCast (R := ℚ), ← hjq]
      exact hz
    push_cast
    linarith
  have hdw : determineWinner moves none (pickIdx moves r) =
      Except.error () := determineWinner_none moves (pickIdx moves r)
  refine ⟨hval, ?_⟩
  simp [main, hvalid, playGame, preamble, hval, hget, hdw]

/-- C10 witness: the value 0 (the `Number(...)` value of the inputs "" and
"00", neither of which is the exit string "0") at the five-move set: the
gate passes and the run ends in the resolver's error with no reveal. -/
theorem c10_gate_passes_resolver_rejects_witness :
    validateUserInputThrows (JSVal.num 0) rpsls.length = false ∧
    main (fun a b => a ++ b) "k" 0 rpsls (Inp.other (JSVal.num 0)) =
      [Ev.genKey, Ev.pickMove, Ev.showHMAC "kRock",
       Ev.showMoves, Ev.prompt, Ev.showUserMove none,
       Ev.showComputerMove "Rock", Ev.errorMsg] :=
  c10_gate_passes_resolver_rejects (fun a b => a ++ b) "k" 0 rpsls 0
    (by decide) (by decide) (by decide)
    (by
      intro j h1 h2 h
      have hj0 : (j : ℚ) = 0 := h.symm
      have : j = 0 := by exact_mod_cast hj0
      omega)

end RPS
